import Mathlib

/-!
Verification of the DataHub search pipeline (`scripts/datahub_search.py`).

A shallow embedding of the search–filter–sort–format pipeline of
`datahub_search.py`, together with proofs of the spec's testable
properties.  Python dictionaries returned by the backend are modeled as
structures of `Option`-valued fields (a `none` field is an absent key);
Python exceptions that can escape a function are modeled by `Except`
results; functions whose Python bodies cannot raise are plain total
functions.

Modeling conventions, used throughout:
* Python string truthiness (`if s:`) is "present and non-empty".
* `str.lower()` / `str.upper()` are modeled on ASCII letters only
  (the registry labels, filter values and mode names are ASCII).
* `datetime` values are modeled by `PyDateTime` in the proleptic
  Gregorian calendar; `datetime.fromtimestamp` uses the process-local
  timezone and float division in CPython, modeled here as UTC with
  exact integer arithmetic (no claim depends on sub-second values or
  the zone offset).
-/

deriving instance DecidableEq for Except

/-! ## Python string helpers -/

/-- Python truthiness of an optional string: `None` and `""` are falsy. -/
def truthyS : Option String → Bool
  | none => false
  | some s => !s.isEmpty

/-- `a or b` on optional strings under Python truthiness. -/
def pyOrS (a b : Option String) : Option String :=
  if truthyS a then a else b

/-- Python `str.lower()` (ASCII case mapping only). -/
def pyLower (s : String) : String := String.mk (s.toList.map Char.toLower)

/-- Python `str.upper()` (ASCII case mapping only). -/
def pyUpper (s : String) : String := String.mk (s.toList.map Char.toUpper)

/-- Does `needle` occur at the start of `hay`? -/
def listStarts : List Char → List Char → Bool
  | [], _ => true
  | _ :: _, [] => false
  | c :: cs, d :: ds => c == d && listStarts cs ds

/-- Does `needle` occur anywhere in `hay`?  (Python `needle in hay`.) -/
def listHas (needle : List Char) : List Char → Bool
  | [] => needle.isEmpty
  | c :: t => listStarts needle (c :: t) || listHas needle t

/-- Python substring containment `needle in hay`. -/
def pyIn (needle hay : String) : Bool := listHas needle.toList hay.toList

/-- Python `s.startswith(t)`. -/
def strStarts (s t : String) : Bool := listStarts t.toList s.toList

/-- Python `s.endswith(t)`. -/
def strEnds (s t : String) : Bool := listStarts t.toList.reverse s.toList.reverse

/-! ## Python `int(str)` -/

/-- ASCII whitespace stripped by Python `int()`. -/
def isPySpace (c : Char) : Bool :=
  c == ' ' || c == '\t' || c == '\n' || c == '\r' || c == '\x0b' || c == '\x0c'

/-- No two consecutive underscores. -/
def noDoubleUnderscore : List Char → Bool
  | '_' :: '_' :: _ => false
  | _ :: t => noDoubleUnderscore t
  | [] => true

/-- Digit groups separated by single underscores: `digit ('_'? digit)*`. -/
def underscoreDigitsOk (l : List Char) : Bool :=
  match l with
  | [] => false
  | c :: _ =>
    c.isDigit
      && (match l.getLast? with | some d => d.isDigit | none => false)
      && l.all (fun c => c.isDigit || c == '_')
      && noDoubleUnderscore l

/-- Numeric value of a digit list (most significant first). -/
def digitsVal (l : List Char) : Nat :=
  l.foldl (fun n c => n * 10 + (c.toNat - '0'.toNat)) 0

/-- Python `int(s)`: optional surrounding whitespace, optional sign, decimal
digits with single underscores allowed between digits.  `none` models the
`ValueError` raised on any other input.  (Unicode decimal digits are not
modeled.) -/
def pyIntParse (s : String) : Option Int :=
  let l := ((s.toList.dropWhile isPySpace).reverse.dropWhile isPySpace).reverse
  let (sign, digs) : Int × List Char :=
    match l with
    | '+' :: t => (1, t)
    | '-' :: t => (-1, t)
    | t => (1, t)
  if underscoreDigitsOk digs then
    some (sign * (digitsVal (digs.filter (fun c => c != '_')) : Int))
  else none

/-! ## `datetime` model -/

/-- A CPython `datetime.datetime` value (year 1–9999). -/
structure PyDateTime where
  year : Nat
  month : Nat
  day : Nat
  hour : Nat := 0
  minute : Nat := 0
  second : Nat := 0
  microsecond : Nat := 0
deriving DecidableEq, Repr

/-- Mixed-radix key realizing `datetime`'s lexicographic comparison (all
components of constructed values are within their radix bounds). -/
def PyDateTime.key (d : PyDateTime) : Nat :=
  ((((((d.year * 13 + d.month) * 32 + d.day) * 24 + d.hour) * 60
      + d.minute) * 60 + d.second) * 1000000 + d.microsecond)

/-- `a <= b` on datetimes. -/
def dtLe (a b : PyDateTime) : Bool := a.key ≤ b.key

/-- `a < b` on datetimes. -/
def dtLt (a b : PyDateTime) : Bool := a.key < b.key

def isLeapYear (y : Nat) : Bool :=
  y % 4 == 0 && (y % 100 != 0 || y % 400 == 0)

def daysInMonth (y m : Nat) : Nat :=
  if m == 2 then (if isLeapYear y then 29 else 28)
  else if m == 4 || m == 6 || m == 9 || m == 11 then 30
  else 31

/-- Split a character list at every `'-'` (Python `re` group boundaries are
forced to the dashes because `\d` cannot match `'-'`). -/
def splitDash : List Char → List (List Char)
  | [] => [[]]
  | c :: t =>
    if c == '-' then [] :: splitDash t
    else
      match splitDash t with
      | h :: r => (c :: h) :: r
      | [] => [[c]]

/-- `datetime.strptime(s, "%Y-%m-%d")`, `none` modeling `ValueError`.
CPython compiles the format to the full-match regex
`\d\d\d\d-\d{1,2}-\d{1,2}` (the year is exactly four digits, month and day
one or two) and then validates the calendar ranges when constructing the
`datetime` (year ≥ 1, month 1–12, day 1–days-in-month). -/
def strptimeYmd (s : String) : Option PyDateTime :=
  match splitDash s.toList with
  | [ys, ms, ds] =>
    if ys.length == 4 && ms.length ≥ 1 && ms.length ≤ 2
        && ds.length ≥ 1 && ds.length ≤ 2
        && ys.all Char.isDigit && ms.all Char.isDigit && ds.all Char.isDigit then
      let y := digitsVal ys
      let mo := digitsVal ms
      let d := digitsVal ds
      if 1 ≤ y && 1 ≤ mo && mo ≤ 12 && 1 ≤ d && d ≤ daysInMonth y mo then
        some { year := y, month := mo, day := d }
      else none
    else none
  | _ => none

/-- Civil date from a day count relative to 1970-01-01 (Howard Hinnant's
`civil_from_days`; the inner divisions act on non-negative values, so
truncating division matches the C source it is taken from). -/
def civilFromDays (z0 : Int) : Int × Int × Int :=
  let z := z0 + 719468
  let era := (if z ≥ 0 then z else z - 146096).tdiv 146097
  let doe := z - era * 146097
  let yoe := (doe - doe.tdiv 1460 + doe.tdiv 36524 - doe.tdiv 146096).tdiv 365
  let y := yoe + era * 400
  let doy := doe - (365 * yoe + yoe.tdiv 4 - yoe.tdiv 100)
  let mp := (5 * doy + 2).tdiv 153
  let d := doy - (153 * mp + 2).tdiv 5 + 1
  let m := mp + (if mp < 10 then 3 else -9)
  (y + (if m ≤ 2 then 1 else 0), m, d)

/-- `datetime.fromtimestamp(ms / 1000)` for an in-range millisecond count:
`some` datetime for years 1–9999, `none` modeling the `ValueError`/`OSError`
that CPython raises (and `_parse_odata_date` catches) for years outside that
range.  Local-timezone and float-rounding effects are modeled as UTC exact
arithmetic. -/
def fromtimestampMs (ms : Int) : Option PyDateTime :=
  let totalUs : Int := ms * 1000
  let days := totalUs.ediv 86400000000
  let usOfDay := (totalUs.emod 86400000000).toNat
  let (y, mo, d) := civilFromDays days
  if 1 ≤ y && y ≤ 9999 then
    some { year := y.toNat, month := mo.toNat, day := d.toNat,
           hour := usOfDay / 3600000000,
           minute := usOfDay / 60000000 % 60,
           second := usOfDay / 1000000 % 60,
           microsecond := usOfDay % 1000000 }
  else none

/-- `datetime.fromtimestamp(sec)` raises `OverflowError` — which
`_parse_odata_date` does *not* catch — once `|sec|` exceeds the platform
`time_t` range (`2^63` on 64-bit CPython); astronomically larger values
already overflow at the float division `ms / 1000`, also an uncaught
`OverflowError`.  In milliseconds the uncaught region starts at
`2^63 * 1000` (float rounding at the exact boundary is not modeled). -/
def PY_OVERFLOW_MS : Int := 9223372036854775808 * 1000

/-- `_parse_odata_date(date_str)`: `.ok none` models a `return None`
(including the internally caught `ValueError`/`OSError`), `.error` models an
uncaught `OverflowError` escaping the function. -/
def _parse_odata_date (date_str : Option String) : Except String (Option PyDateTime) :=
  match date_str with
  | none => .ok none
  | some s =>
    if s.isEmpty then .ok none
    else if strStarts s "/Date(" && strEnds s ")/" then
      match pyIntParse ((s.drop 6).dropRight 2) with
      | none => .ok none
      | some ms =>
        if ms ≥ PY_OVERFLOW_MS || ms ≤ -PY_OVERFLOW_MS then
          .error "OverflowError"
        else
          match fromtimestampMs ms with
          | some dt => .ok (some dt)
          | none => .ok none
    else .ok (strptimeYmd (s.take 10))

/-! ## Search result items

A DataHub `SearchResultItem` is an opaque attribute mapping; the fields the
pipeline reads are modeled as optional structure fields (`none` = key
absent).  JSON `null` values, which would crash several `dict.get(k, "")`
call sites, are not modeled. -/

/-- The `ownerUser` sub-record. -/
structure OwnerUser where
  emailAddress : Option String := none
  givenName : Option String := none
  familyName : Option String := none
deriving DecidableEq, Repr

instance : Inhabited OwnerUser := ⟨{}⟩

/-- The `artifact` sub-record.  `directLakeMode` is read with
`artifact.get("directLakeMode", False)` and only used for truthiness, so it
is modeled as a plain `Bool` with absent = `False`. -/
structure Artifact where
  storageMode : Option Int := none
  directLakeMode : Bool := false
  sharedFromEnterpriseCapacitySku : Option String := none
  LastRefreshTime : Option String := none
  lastRefreshTime : Option String := none
  lastUpdatedDate : Option String := none
deriving DecidableEq, Repr

instance : Inhabited Artifact := ⟨{}⟩

/-- A DataHub search-result item (the keys read by the pipeline). -/
structure Item where
  displayName : Option String := none
  name : Option String := none
  workspaceName : Option String := none
  workspaceObjectId : Option String := none
  objectId : Option String := none
  lastVisitedTimeUTC : Option String := none
  lastRefreshTime : Option String := none
  modifiedDate : Option String := none
  ownerUser : Option OwnerUser := none
  artifact : Option Artifact := none
  isDiscoverable : Option Bool := none
deriving DecidableEq, Repr

/-- `item.get(key, default)` for string fields. -/
def getS (o : Option String) (d : String) : String := o.getD d

/-- `item.get("ownerUser", {})`. -/
def Item.owner (item : Item) : OwnerUser := item.ownerUser.getD {}

/-- `item.get("artifact", {})`. -/
def Item.art (item : Item) : Artifact := item.artifact.getD {}

/-! ## Refresh-time derivation (`_get_item_refresh_time`) -/

/-- `_get_item_refresh_time(item)`: last refresh time string, drawn from
three sources in priority order — top-level `lastRefreshTime`, then
`artifact.LastRefreshTime or artifact.lastRefreshTime`, then
`artifact.lastUpdatedDate`; each is taken only if truthy. -/
def _get_item_refresh_time (item : Item) : Option String :=
  if truthyS item.lastRefreshTime then item.lastRefreshTime
  else
    let artifact := item.art
    let refresh_time := pyOrS artifact.LastRefreshTime artifact.lastRefreshTime
    if truthyS refresh_time then refresh_time
    else if truthyS artifact.lastUpdatedDate then artifact.lastUpdatedDate
    else none

/-- The `get_refresh_datetime` local helper of `apply_filters` (its body
performs the same three-source selection as `_get_item_refresh_time`,
then decodes with `_parse_odata_date`). -/
def get_refresh_datetime (item : Item) : Except String (Option PyDateTime) :=
  match _get_item_refresh_time item with
  | some s => _parse_odata_date (some s)
  | none => .ok none

/-! ## Filter predicates (`apply_filters`) -/

/-- Name filter: case-insensitive containment in `displayName` or `name`. -/
def namePred (name_filter : String) (item : Item) : Bool :=
  let name_lower := pyLower name_filter
  pyIn name_lower (pyLower (getS item.displayName ""))
    || pyIn name_lower (pyLower (getS item.name ""))

/-- Workspace filter: case-insensitive containment in `workspaceName`. -/
def workspacePred (workspace_filter : String) (item : Item) : Bool :=
  pyIn (pyLower workspace_filter) (pyLower (getS item.workspaceName ""))

/-- Owner filter: containment in any of email, given name, family name. -/
def ownerPred (owner_filter : String) (item : Item) : Bool :=
  let owner_lower := pyLower owner_filter
  pyIn owner_lower (pyLower (getS item.owner.emailAddress ""))
    || pyIn owner_lower (pyLower (getS item.owner.givenName ""))
    || pyIn owner_lower (pyLower (getS item.owner.familyName ""))

/-- An item whose truthy `lastVisitedTimeUTC` does not `strptime`: inside
the visited-filter comprehensions such an item raises `ValueError`, which
the surrounding `except ValueError` turns into skipping the whole filter. -/
def visitedBad (item : Item) : Bool :=
  truthyS item.lastVisitedTimeUTC
    && (strptimeYmd ((getS item.lastVisitedTimeUTC "").take 10)).isNone

/-- `--visited-since`: truthy `lastVisitedTimeUTC` whose first ten
characters parse to a date on or after the boundary. -/
def visitedSincePred (since_date : PyDateTime) (item : Item) : Bool :=
  truthyS item.lastVisitedTimeUTC
    && (match strptimeYmd ((getS item.lastVisitedTimeUTC "").take 10) with
        | some d => dtLe since_date d
        | none => false)

/-- `--not-visited-since`: truthy `lastVisitedTimeUTC` strictly before the
boundary. -/
def notVisitedSincePred (since_date : PyDateTime) (item : Item) : Bool :=
  truthyS item.lastVisitedTimeUTC
    && (match strptimeYmd ((getS item.lastVisitedTimeUTC "").take 10) with
        | some d => dtLt d since_date
        | none => false)

/-- An item whose refresh-time decoding raises the uncaught
`OverflowError` (see `_parse_odata_date`). -/
def refreshedBad (item : Item) : Bool :=
  match get_refresh_datetime item with
  | .error _ => true
  | .ok _ => false

/-- `--refreshed-since`: decoded refresh instant on or after the boundary
(items with no decodable instant are excluded). -/
def refreshedSincePred (since_date : PyDateTime) (item : Item) : Bool :=
  match get_refresh_datetime item with
  | .ok (some d) => dtLe since_date d
  | _ => false

/-- `--not-refreshed-since`: decoded refresh instant strictly before the
boundary (items with no decodable instant are excluded). -/
def notRefreshedSincePred (since_date : PyDateTime) (item : Item) : Bool :=
  match get_refresh_datetime item with
  | .ok (some d) => dtLt d since_date
  | _ => false

/-- An item whose `modifiedDate` decoding raises the uncaught
`OverflowError`. -/
def updatedBad (item : Item) : Bool :=
  match _parse_odata_date item.modifiedDate with
  | .error _ => true
  | .ok _ => false

/-- `--updated-since`: decoded `modifiedDate` on or after the boundary. -/
def updatedSincePred (since_date : PyDateTime) (item : Item) : Bool :=
  match _parse_odata_date item.modifiedDate with
  | .ok (some d) => dtLe since_date d
  | _ => false

/-- `--not-updated-since`: decoded `modifiedDate` strictly before. -/
def notUpdatedSincePred (since_date : PyDateTime) (item : Item) : Bool :=
  match _parse_odata_date item.modifiedDate with
  | .ok (some d) => dtLt d since_date
  | _ => false

/-- The `matches_storage` local helper: `import` is backend code 1,
`directquery` code 2, `directlake` the boolean flag; the argument is
lower-cased first (`mode_lower = storage_mode.lower()`). -/
def matches_storage (storage_mode : String) (item : Item) : Bool :=
  let mode_lower := pyLower storage_mode
  let artifact := item.art
  let sm := artifact.storageMode
  let dl := artifact.directLakeMode
  (mode_lower == "import" && sm == some 1)
    || (mode_lower == "directquery" && sm == some 2)
    || (mode_lower == "directlake" && dl)

/-- Capacity-SKU filter: case-insensitive containment in the artifact's
`sharedFromEnterpriseCapacitySku`. -/
def skuPred (capacity_sku : String) (item : Item) : Bool :=
  pyIn (pyUpper capacity_sku) (pyUpper (getS item.art.sharedFromEnterpriseCapacitySku ""))

/-! ## Filter stages

`apply_filters` runs its eleven optional filters in source order, each one
narrowing `result`.  Three stage shapes occur:
* a text filter, active when its argument is truthy;
* a date filter whose whole `try` block — boundary `strptime` *and* the
  comprehension — is guarded by `except ValueError`: a malformed boundary
  *or* a `ValueError` raised by any item in the current list skips the
  stage, leaving `result` unchanged;
* a date filter whose comprehension can additionally raise the uncaught
  `OverflowError` out of `_parse_odata_date`, modeled with `Except`. -/

/-- A text filter stage (`if arg: result = [x for x in result if pred]`). -/
def textFilterStage (arg : Option String) (pred : String → Item → Bool)
    (result : List Item) : List Item :=
  match arg with
  | none => result
  | some s => if s.isEmpty then result else result.filter (pred s)

/-- A date filter stage whose comprehension errors are caught: a malformed
boundary or any `bad` item in the current list skips the stage. -/
def dateSkipStage (arg : Option String) (bad : Item → Bool)
    (pred : PyDateTime → Item → Bool) (result : List Item) : List Item :=
  match arg with
  | none => result
  | some s =>
    if s.isEmpty then result
    else
      match strptimeYmd s with
      | none => result
      | some since_date =>
        if result.any bad then result
        else result.filter (pred since_date)

/-- A date filter stage whose comprehension can raise an uncaught
`OverflowError` (any `bad` item in the current list). -/
def dateRaiseStage (arg : Option String) (bad : Item → Bool)
    (pred : PyDateTime → Item → Bool) (result : List Item) :
    Except String (List Item) :=
  match arg with
  | none => .ok result
  | some s =>
    if s.isEmpty then .ok result
    else
      match strptimeYmd s with
      | none => .ok result
      | some since_date =>
        if result.any bad then .error "OverflowError"
        else .ok (result.filter (pred since_date))

/-- The optional filter arguments of `apply_filters` (`None` = do not
filter on this dimension). -/
structure FilterArgs where
  name_filter : Option String := none
  workspace_filter : Option String := none
  owner_filter : Option String := none
  visited_since : Option String := none
  not_visited_since : Option String := none
  refreshed_since : Option String := none
  not_refreshed_since : Option String := none
  updated_since : Option String := none
  not_updated_since : Option String := none
  storage_mode : Option String := none
  capacity_sku : Option String := none
deriving DecidableEq, Repr

/-- `apply_filters(items, ...)`: the eleven filters in source order.
`.error` models an uncaught `OverflowError` escaping the function. -/
def apply_filters (a : FilterArgs) (items : List Item) : Except String (List Item) :=
  let result := items
  let result := textFilterStage a.name_filter namePred result
  let result := textFilterStage a.workspace_filter workspacePred result
  let result := textFilterStage a.owner_filter ownerPred result
  let result := dateSkipStage a.visited_since visitedBad visitedSincePred result
  let result := dateSkipStage a.not_visited_since visitedBad notVisitedSincePred result
  match dateRaiseStage a.refreshed_since refreshedBad refreshedSincePred result with
  | .error e => .error e
  | .ok result =>
    match dateRaiseStage a.not_refreshed_since refreshedBad notRefreshedSincePred result with
    | .error e => .error e
    | .ok result =>
      match dateRaiseStage a.updated_since updatedBad updatedSincePred result with
      | .error e => .error e
      | .ok result =>
        match dateRaiseStage a.not_updated_since updatedBad notUpdatedSincePred result with
        | .error e => .error e
        | .ok result =>
          let result := textFilterStage a.storage_mode matches_storage result
          let result := textFilterStage a.capacity_sku skuPred result
          .ok result

/-! ## Sorting (`sort_items`)

CPython's `sorted(key=..., reverse=...)` is a stable sort; it is modeled by
a keyed insertion sort in which an element is inserted before the first
element it need not follow, so that equal keys keep input order for both
directions.  All six sort keys of the source are strings compared by
Python's code-point lexicographic order. -/

/-- Python string `<`: lexicographic on code points. -/
def lexLt : List Char → List Char → Bool
  | [], [] => false
  | [], _ :: _ => true
  | _ :: _, [] => false
  | a :: as_, b :: bs =>
    if a.toNat < b.toNat then true
    else if b.toNat < a.toNat then false
    else lexLt as_ bs

/-- Python `a < b` on strings. -/
def pyStrLt (a b : String) : Bool := lexLt a.toList b.toList

/-- The effective strict order of `sorted(..., reverse=reverse)`. -/
def sortLt (reverse : Bool) (a b : String) : Bool :=
  if reverse then pyStrLt b a else pyStrLt a b

/-- Stable keyed insertion: `x` goes before the first element whose key is
not strictly less than `x`'s (so before any equal-keyed element that came
later in the input, preserving input order of equal keys). -/
def pyInsert (lt : String → String → Bool) (key : Item → String) (x : Item) :
    List Item → List Item
  | [] => [x]
  | y :: ys =>
    if lt (key y) (key x) then y :: pyInsert lt key x ys
    else x :: y :: ys

/-- Stable sort modeling Python `sorted(items, key=key, reverse=...)`. -/
def pySorted (lt : String → String → Bool) (key : Item → String) :
    List Item → List Item
  | [] => []
  | x :: xs => pyInsert lt key x (pySorted lt key xs)

/-- The sort key of each recognized `--sort` field. -/
def sortKeyOf (sort_by : String) (x : Item) : String :=
  if sort_by = "name" then pyLower (getS x.displayName "")
  else if sort_by = "workspace" then pyLower (getS x.workspaceName "")
  else if sort_by = "last-visited" then getS x.lastVisitedTimeUTC ""
  else if sort_by = "last-refreshed" then getS (_get_item_refresh_time x) ""
  else if sort_by = "last-modified" then getS x.modifiedDate ""
  else if sort_by = "owner" then pyLower (getS x.owner.emailAddress "")
  else ""

/-- `sort_items(items, sort_by, sort_order)`: stable sort by one of six
fields; any other `sort_by` returns the input unchanged.  (For
`last-refreshed` the source key is `_get_item_refresh_time(x) or ""`;
`_get_item_refresh_time` never returns a falsy non-`None` value, so this
equals `getS (_get_item_refresh_time x) ""`.) -/
def sort_items (items : List Item) (sort_by : String)
    (sort_order : String := "desc") : List Item :=
  let reverse := pyLower sort_order ≠ "asc"
  if sort_by = "name" then
    pySorted (sortLt reverse) (fun x => pyLower (getS x.displayName "")) items
  else if sort_by = "workspace" then
    pySorted (sortLt reverse) (fun x => pyLower (getS x.workspaceName "")) items
  else if sort_by = "last-visited" then
    pySorted (sortLt reverse) (fun x => getS x.lastVisitedTimeUTC "") items
  else if sort_by = "last-refreshed" then
    pySorted (sortLt reverse) (fun x => getS (_get_item_refresh_time x) "") items
  else if sort_by = "last-modified" then
    pySorted (sortLt reverse) (fun x => getS x.modifiedDate "") items
  else if sort_by = "owner" then
    pySorted (sortLt reverse) (fun x => pyLower (getS x.owner.emailAddress "")) items
  else items

/-! ## Output formatting (`format_output`) -/

/-- `_get_storage_mode(item)`: human-readable storage mode; the direct-lake
flag takes precedence over the numeric code. -/
def _get_storage_mode (item : Item) : String :=
  let artifact := item.art
  if artifact.directLakeMode then "DirectLake"
  else if artifact.storageMode == some 1 then "Import"
  else if artifact.storageMode == some 2 then "DirectQuery"
  else "Unknown"

/-- Left-pad a number with zeros to a width. -/
def padNum (width n : Nat) : String :=
  let s := toString n
  String.mk (List.replicate (width - s.length) '0') ++ s

/-- `datetime.isoformat()`: `YYYY-MM-DDTHH:MM:SS`, with `.ffffff` appended
only when the microsecond field is non-zero. -/
def PyDateTime.isoformat (d : PyDateTime) : String :=
  padNum 4 d.year ++ "-" ++ padNum 2 d.month ++ "-" ++ padNum 2 d.day
    ++ "T" ++ padNum 2 d.hour ++ ":" ++ padNum 2 d.minute ++ ":" ++ padNum 2 d.second
    ++ (if d.microsecond = 0 then "" else "." ++ padNum 6 d.microsecond)

/-- `_get_refresh_time(item)`: refresh instant as ISO string; `.error`
models the uncaught `OverflowError` out of `_parse_odata_date`. -/
def _get_refresh_time (item : Item) : Except String (Option String) :=
  match _get_item_refresh_time item with
  | some s =>
    match _parse_odata_date (some s) with
    | .error e => .error e
    | .ok (some dt) => .ok (some dt.isoformat)
    | .ok none => .ok none
  | none => .ok none

/-- `_get_modified_time(item)`: `modifiedDate` as ISO string. -/
def _get_modified_time (item : Item) : Except String (Option String) :=
  if truthyS item.modifiedDate then
    match _parse_odata_date item.modifiedDate with
    | .error e => .error e
    | .ok (some dt) => .ok (some dt.isoformat)
    | .ok none => .ok none
  else .ok none

/-- Opening and closing braces, used when rendering JSON text. -/
def lbrace : String := "\x7b"

def rbrace : String := "\x7d"

/-- JSON string escaping as `json.dumps` does with the default
`ensure_ascii=True`: `"`, `\`, control characters and all non-ASCII
characters are escaped (astral characters as surrogate pairs). -/
def jsonEscapeChar (c : Char) : String :=
  if c = '"' then "\\\""
  else if c = '\\' then "\\\\"
  else if c = '\n' then "\\n"
  else if c = '\t' then "\\t"
  else if c = '\r' then "\\r"
  else if c.toNat = 8 then "\\b"
  else if c.toNat = 12 then "\\f"
  else if c.toNat < 32 || c.toNat > 126 then
    if c.toNat < 65536 then
      "\\u" ++ padHex (c.toNat)
    else
      let v := c.toNat - 65536
      "\\u" ++ padHex (55296 + v / 1024) ++ "\\u" ++ padHex (56320 + v % 1024)
  else String.singleton c
where
  hexDigit (n : Nat) : Char :=
    if n < 10 then Char.ofNat ('0'.toNat + n) else Char.ofNat ('a'.toNat + n - 10)
  padHex (n : Nat) : String :=
    String.mk [hexDigit (n / 4096 % 16), hexDigit (n / 256 % 16),
               hexDigit (n / 16 % 16), hexDigit (n % 16)]

/-- A JSON-encoded string literal. -/
def jsonStr (s : String) : String :=
  "\"" ++ String.join (s.toList.map jsonEscapeChar) ++ "\""

/-- A JSON value for an optional string (`null` for `None`). -/
def jsonOptStr : Option String → String
  | none => "null"
  | some s => jsonStr s

/-- A JSON value for an optional bool. -/
def jsonOptBool : Option Bool → String
  | none => "null"
  | some true => "true"
  | some false => "false"

/-- One cleaned record of the structured (`json`) output mode, rendered as
`json.dumps(..., indent=2)` renders a dict nested one level deep. -/
def jsonCleanedItem (item : Item) (lastRefreshed lastModified : Option String) : String :=
  let fields : List (String × String) :=
    [("name", jsonOptStr (match item.displayName with
        | some s => some s | none => item.name)),
     ("workspace", jsonOptStr item.workspaceName),
     ("workspaceId", jsonOptStr item.workspaceObjectId),
     ("id", jsonOptStr item.objectId),
     ("lastVisited", jsonOptStr item.lastVisitedTimeUTC),
     ("lastRefreshed", jsonOptStr lastRefreshed),
     ("lastModified", jsonOptStr lastModified),
     ("owner", jsonOptStr item.owner.emailAddress),
     ("ownerName", jsonStr (pyStrip (getS item.owner.givenName "" ++ " "
        ++ getS item.owner.familyName ""))),
     ("storageMode", jsonStr (_get_storage_mode item)),
     ("capacitySku", jsonOptStr item.art.sharedFromEnterpriseCapacitySku),
     ("isDiscoverable", jsonOptBool item.isDiscoverable)]
  lbrace ++ "\n" ++
    String.intercalate ",\n"
      (fields.map (fun f => "    " ++ jsonStr f.1 ++ ": " ++ f.2))
    ++ "\n  " ++ rbrace
where
  pyStrip (s : String) : String :=
    String.mk (((s.toList.dropWhile isPySpace).reverse.dropWhile isPySpace).reverse)

/-- The cleaned records of the `json` mode for a list of items (left to
right; the first item whose refresh decoding raises aborts). -/
def jsonCleaned : List Item → Except String (List String)
  | [] => .ok []
  | item :: rest =>
    match _get_refresh_time item with
    | .error e => .error e
    | .ok lastRefreshed =>
      match _get_modified_time item with
      | .error e => .error e
      | .ok lastModified =>
        match jsonCleaned rest with
        | .error e => .error e
        | .ok tail => .ok (jsonCleanedItem item lastRefreshed lastModified :: tail)

/-- `json.dumps(cleaned, indent=2)`: `[]` for the empty list, otherwise the
records joined by `,\n  ` inside brackets. -/
def jsonDumpsCleaned (cleaned : List String) : String :=
  match cleaned with
  | [] => "[]"
  | _ => "[\n  " ++ String.intercalate ",\n  " cleaned ++ "\n]"

/-- Python `s[:n]` on strings. -/
def pyTake (s : String) (n : Nat) : String := s.take n

/-- Python `f"{s:<width}"`: pad on the right with spaces. -/
def padRight (s : String) (width : Nat) : String :=
  s ++ String.mk (List.replicate (width - s.length) ' ')

/-- A brief-mode line: `workspace/name`. -/
def briefLine (item : Item) : String :=
  getS item.workspaceName "" ++ "/" ++ getS item.displayName (getS item.name "Unknown")

/-- A detailed-mode block (eight labeled lines plus a rule). -/
def detailedBlock (item : Item) : List String :=
  let owner := item.owner
  ["Name:        " ++ getS item.displayName (getS item.name "Unknown"),
   "Workspace:   " ++ getS item.workspaceName "N/A",
   "ID:          " ++ getS item.objectId "N/A",
   "Last Visit:  " ++ (if truthyS item.lastVisitedTimeUTC then
      pyTake (getS item.lastVisitedTimeUTC "N/A") 19 else "N/A"),
   "Owner:       " ++ getS owner.givenName "" ++ " " ++ getS owner.familyName ""
      ++ " <" ++ getS owner.emailAddress "N/A" ++ ">",
   "Storage:     " ++ _get_storage_mode item,
   "Capacity:    " ++ getS item.art.sharedFromEnterpriseCapacitySku "N/A",
   "Discoverable:" ++ (match item.isDiscoverable with
      | some true => "True" | some false => "False" | none => "N/A"),
   String.mk (List.replicate 60 '-')]

/-- A table-mode row. -/
def tableRow (item : Item) : String :=
  let name := pyTake (getS item.displayName (getS item.name "Unknown")) 34
  let workspace := pyTake (getS item.workspaceName "") 21
  let last_visit := if truthyS item.lastVisitedTimeUTC then
      pyTake (getS item.lastVisitedTimeUTC "") 10 else ""
  let owner := item.owner
  let owner_name := pyTake (getS owner.givenName "" ++ " " ++ getS owner.familyName "") 19
  padRight name 35 ++ " " ++ padRight workspace 22 ++ " "
    ++ padRight last_visit 12 ++ " " ++ padRight owner_name 20

/-- `format_output(items, output_format, show_fields)`.  The `show_fields`
parameter is accepted and unused, as in the source.  `.error` models the
uncaught `OverflowError` that the `json` mode's refresh decoding can
raise. -/
def format_output (items : List Item) (output_format : String := "table")
    (_show_fields : Option (List String) := none) : Except String String :=
  if output_format = "json" then
    match jsonCleaned items with
    | .error e => .error e
    | .ok cleaned => .ok (jsonDumpsCleaned cleaned)
  else if items.isEmpty then .ok "No items found."
  else if output_format = "brief" then
    .ok (String.intercalate "\n" (items.map briefLine))
  else if output_format = "detailed" then
    .ok (String.intercalate "\n" (items.map detailedBlock).flatten)
  else
    .ok (String.intercalate "\n"
      ((padRight "Name" 35 ++ " " ++ padRight "Workspace" 22 ++ " "
          ++ padRight "Last Visited" 12 ++ " " ++ padRight "Owner" 20)
        :: String.mk (List.replicate 92 '-')
        :: items.map tableRow))

/-! ## Configuration registries -/

/-- The `REGIONS` registry: region key to backend host. -/
def REGIONS : List (String × String) :=
  [("west-europe", "wabi-west-europe-e-primary-redirect.analysis.windows.net"),
   ("north-europe", "wabi-north-europe-e-primary-redirect.analysis.windows.net"),
   ("us-east", "wabi-us-east-e-primary-redirect.analysis.windows.net"),
   ("us-east2", "wabi-us-east2-e-primary-redirect.analysis.windows.net"),
   ("us-west", "wabi-us-west-e-primary-redirect.analysis.windows.net"),
   ("us-north-central", "wabi-us-north-central-e-primary-redirect.analysis.windows.net"),
   ("us-south-central", "wabi-us-south-central-e-primary-redirect.analysis.windows.net"),
   ("south-east-asia", "wabi-south-east-asia-e-primary-redirect.analysis.windows.net"),
   ("australia-east", "wabi-australia-east-e-primary-redirect.analysis.windows.net"),
   ("brazil-south", "wabi-brazil-south-e-primary-redirect.analysis.windows.net"),
   ("canada-central", "wabi-canada-central-e-primary-redirect.analysis.windows.net"),
   ("india-west", "wabi-india-west-e-primary-redirect.analysis.windows.net"),
   ("japan-east", "wabi-japan-east-e-primary-redirect.analysis.windows.net"),
   ("uk-south", "wabi-uk-south-e-primary-redirect.analysis.windows.net")]

def DEFAULT_REGION : String := "west-europe"

/-- An `ITEM_TYPES` registry value: backend ("trident") label, category,
human description. -/
structure ItemTypeInfo where
  trident : String
  category : String
  desc : String
deriving DecidableEq, Repr

/-- The static `ITEM_TYPES` registry, keyed by public label. -/
def ITEM_TYPES : List (String × ItemTypeInfo) :=
  [("PowerBIReport", ⟨"report", "Reports", "Power BI reports (.pbix)"⟩),
   ("Report", ⟨"report", "Reports", "Alias for PowerBIReport"⟩),
   ("PaginatedReport", ⟨"rdlreport", "Reports", "Paginated/RDL reports"⟩),
   ("Dashboard", ⟨"dashboard", "Reports", "Power BI dashboards"⟩),
   ("OrgApp", ⟨"OrgApp", "Reports", "Published Power BI apps"⟩),
   ("Model", ⟨"dataset", "Models", "Semantic models/datasets (USE THIS)"⟩),
   ("SemanticModel", ⟨"semanticModel", "Models", "Alternative (often returns 0)"⟩),
   ("MetricSet", ⟨"MetricSet", "Models", "Metric sets"⟩),
   ("Lakehouse", ⟨"Lakehouse", "Data", "Fabric lakehouses"⟩),
   ("Warehouse", ⟨"Warehouse", "Data", "Fabric data warehouses"⟩),
   ("Datamart", ⟨"datamart", "Data", "Power BI datamarts"⟩),
   ("Sql", ⟨"datamart", "Data", "SQL endpoints"⟩),
   ("KustoDatabase", ⟨"KustoDatabase", "Data", "KQL databases"⟩),
   ("KustoEventHouse", ⟨"KustoEventHouse", "Data", "Eventhouse"⟩),
   ("SQLDbNative", ⟨"SQLDbNative", "Data", "SQL databases"⟩),
   ("CosmosDB", ⟨"CosmosDB", "Data", "Cosmos DB mirrors"⟩),
   ("DatabricksCatalog", ⟨"DatabricksCatalog", "Data", "Databricks catalogs"⟩),
   ("SqlAnalyticsEndpoint", ⟨"SqlAnalyticsEndpoint", "Data", "SQL analytics endpoints"⟩),
   ("WarehouseSnapshot", ⟨"WarehouseSnapshot", "Data", "Warehouse snapshots"⟩),
   ("Lakewarehouse", ⟨"lake-warehouse", "Data", "Lake warehouses"⟩),
   ("MountedWarehouse", ⟨"mounted-warehouse", "Data", "Mounted warehouses"⟩),
   ("MountedRelationalDatabase", ⟨"MountedRelationalDatabase", "Data", "Mounted databases"⟩),
   ("DataFlow", ⟨"dataflow", "Integration", "Power BI dataflows (USE THIS)"⟩),
   ("Dataflow", ⟨"dataflow", "Integration", "Alias (may not work)"⟩),
   ("DataflowFabric", ⟨"DataflowFabric", "Integration", "Fabric dataflows Gen2"⟩),
   ("Pipeline", ⟨"Pipeline", "Integration", "Data pipelines"⟩),
   ("DataPipeline", ⟨"DataPipeline", "Integration", "Alias for Pipeline"⟩),
   ("CopyJob", ⟨"CopyJob", "Integration", "Copy jobs"⟩),
   ("EventStream", ⟨"EventStream", "Integration", "Event streams"⟩),
   ("MountedDataFactory", ⟨"MountedDataFactory", "Integration", "ADF connections"⟩),
   ("ApacheAirflowProject", ⟨"ApacheAirflowProject", "Integration", "Airflow projects"⟩),
   ("SynapseNotebook", ⟨"SynapseNotebook", "Compute", "Fabric notebooks (USE THIS)"⟩),
   ("Notebook", ⟨"SynapseNotebook", "Compute", "Alias for SynapseNotebook"⟩),
   ("SparkJobDefinition", ⟨"SparkJobDefinition", "Compute", "Spark job definitions"⟩),
   ("MLModel", ⟨"MLModel", "ML", "ML models"⟩),
   ("MLExperiment", ⟨"MLExperiment", "ML", "ML experiments"⟩),
   ("OperationalAgents", ⟨"OperationalAgents", "ML", "Operational agents"⟩),
   ("LLMPlugin", ⟨"LLMPlugin", "ML", "LLM/AI plugins"⟩),
   ("KustoDashboard", ⟨"KustoDashboard", "Real-Time", "Real-time dashboards"⟩),
   ("KustoQueryWorkbench", ⟨"KustoQueryWorkbench", "Real-Time", "KQL query workbench"⟩),
   ("Reflex", ⟨"Reflex", "Solutions", "Reflex/Activator items"⟩),
   ("ReflexProject", ⟨"ReflexProject", "Solutions", "Reflex projects"⟩),
   ("GraphQL", ⟨"GraphQL", "Solutions", "GraphQL APIs"⟩),
   ("GraphModel", ⟨"GraphModel", "Solutions", "Graph models"⟩),
   ("FunctionSet", ⟨"FunctionSet", "Solutions", "Function sets"⟩),
   ("DataExploration", ⟨"DataExploration", "Solutions", "Data exploration"⟩),
   ("Exploration", ⟨"Exploration", "Solutions", "Explorations"⟩),
   ("Ontology", ⟨"Ontology", "Knowledge", "Ontology items (IQ)"⟩),
   ("DigitalTwinBuilder", ⟨"DigitalTwinBuilder", "Industry", "Digital twin builder"⟩),
   ("HealthDataManager", ⟨"HealthDataManager", "Industry", "Healthcare data manager"⟩),
   ("HLSCohort", ⟨"HLSCohort", "Industry", "Healthcare cohorts"⟩),
   ("RetailDataManager", ⟨"RetailDataManager", "Industry", "Retail data manager"⟩),
   ("SustainabilityDataManager", ⟨"SustainabilityDataManager", "Industry", "Sustainability manager"⟩),
   ("Environment", ⟨"Environment", "Config", "Spark environments"⟩),
   ("Variables", ⟨"Variables", "Config", "Variable groups"⟩)]

/-! ## Search client (`search_datahub`) -/

/-- The per-label step of `search_datahub`'s backend-label loop: registered
labels resolve to their `trident` value, unknown labels pass through
lower-cased. -/
def resolveTridentType (item_type : String) : String :=
  match ITEM_TYPES.lookup item_type with
  | some info => info.trident
  | none => pyLower item_type

/-- The `trident_types` list built by `search_datahub`. -/
def tridentTypesOf (item_types : List String) : List String :=
  item_types.map resolveTridentType

/-- One entry of the request's `filters` array. -/
structure DatahubFilter where
  datahubFilterType : String
  values : List String
deriving DecidableEq, Repr

/-- The request payload `search_datahub` posts. -/
structure SearchPayload where
  filters : List DatahubFilter
  hostFamily : Nat
  orderBy : String
  orderDirection : String
  pageNumber : Int
  pageSize : Int
  supportedTypes : List String
  tridentSupportedTypes : List String
deriving DecidableEq, Repr

/-- The outbound request: URL, bearer token, JSON payload (the transport
itself is out of scope and supplied as an oracle). -/
structure SearchRequest where
  url : String
  token : String
  payload : SearchPayload
deriving DecidableEq, Repr

/-- A parsed 200-response body as far as `search_datahub` inspects it: a
JSON array of items, or any other JSON value. -/
inductive BodyJson where
  | list (items : List Item)
  | nonList
deriving DecidableEq, Repr

/-- An HTTP response: status code, raw text, and the result of
`response.json()` (`.error` = the body is not valid JSON and `.json()`
raises). -/
structure HttpResponse where
  status : Nat
  text : String
  jsonBody : Except String BodyJson
deriving Repr

/-- The outcome of `requests.post(...)`: a response, the 60-second timeout
(`requests.exceptions.Timeout`), or any other transport exception with its
`str(e)` rendering. -/
inductive NetOutcome where
  | resp (r : HttpResponse)
  | timeout
  | exc (msg : String)
deriving Repr

/-- The dictionary `search_datahub` returns (`none` = key absent). -/
structure SearchResult where
  success : Bool
  items : Option (List Item) := none
  count : Option Nat := none
  region : Option String := none
  host : Option String := none
  error : Option String := none
deriving DecidableEq, Repr

/-- The request `search_datahub` builds and posts: resolved backend labels,
a workspace filter clause only when a workspace id is supplied, the fixed
host-family discriminator and ordering hints, and the page size clamped to
1000 by `min(page_size, 1000)`. -/
def searchRequestOf (token : String) (item_types : List String) (host : String)
    (workspace_id : Option String) (page_size page_number : Int) : SearchRequest :=
  let trident_types := tridentTypesOf item_types
  let filters : List DatahubFilter :=
    if truthyS workspace_id then
      [{ datahubFilterType := "workspace", values := [workspace_id.getD ""] }]
    else []
  let payload : SearchPayload :=
    { filters := filters, hostFamily := 4, orderBy := "Default",
      orderDirection := "", pageNumber := page_number,
      pageSize := min page_size 1000, supportedTypes := item_types,
      tridentSupportedTypes := trident_types }
  { url := "https://" ++ host ++ "/metadata/datahub/V2/artifacts",
    token := token, payload := payload }

/-- `search_datahub(token, item_types, region, workspace_id, page_size,
page_number)` with the network modeled as an oracle `net` mapping the
issued request to its outcome.  Every failure — unknown region, non-200
status, timeout, or any exception inside the `try` (including a body that
`response.json()` cannot parse) — is returned as a structured
`success=False` dictionary; the Python function has no uncaught raise, so
the model is a total function. -/
def search_datahub (net : SearchRequest → NetOutcome) (token : String)
    (item_types : List String) (region : String := DEFAULT_REGION)
    (workspace_id : Option String := none) (page_size : Int := 100)
    (page_number : Int := 1) : SearchResult :=
  match REGIONS.lookup region with
  | none =>
    { success := false,
      error := some ("Unknown region: " ++ region ++ ". Use --list-regions to see options.") }
  | some host =>
    match net (searchRequestOf token item_types host workspace_id page_size page_number) with
    | .resp response =>
      if response.status = 200 then
        match response.jsonBody with
        | .ok (.list xs) =>
          { success := true, items := some xs, count := some xs.length,
            region := some region, host := some host }
        | .ok .nonList =>
          { success := true, items := some [], count := some 0,
            region := some region, host := some host }
        | .error e => { success := false, error := some e, region := some region }
      else
        { success := false,
          error := some ("HTTP " ++ toString response.status ++ ": "
            ++ pyTake response.text 200),
          region := some region }
    | .timeout =>
      { success := false, error := some "Request timed out (60s)", region := some region }
    | .exc msg =>
      { success := false, error := some msg, region := some region }

/-! ## Concrete inputs used by the claim theorems -/

/-- The membership predicate C4 ascribes to the `not-visited-since` filter:
keep exactly the items whose `lastVisitedTimeUTC` first-ten-character date
parses and is strictly before the boundary (absent or empty values do not
parse, hence are excluded). -/
def c4ClaimPred (since_date : PyDateTime) (item : Item) : Bool :=
  match strptimeYmd ((getS item.lastVisitedTimeUTC "").take 10) with
  | some d => dtLt d since_date
  | none => false

/-- An item whose truthy `lastVisitedTimeUTC` does not parse as a date. -/
def c4BadItem : Item := { lastVisitedTimeUTC := some "not-a-date-at-all" }

/-- The three items of the spec's `not-visited-since` example. -/
def c4Visited2023 : Item := { lastVisitedTimeUTC := some "2023-01-01T00:00:00" }

def c4Visited2024 : Item := { lastVisitedTimeUTC := some "2024-12-01T00:00:00" }

def c4NoVisit : Item := {}

/-- An item with storage code 1 (import) and no direct-lake flag. -/
def c5ImportItem : Item := { artifact := some { storageMode := some 1 } }

/-- The spec's direct-lake example: flag set, numeric code 2. -/
def c5DirectLakeItem : Item :=
  { artifact := some { storageMode := some 2, directLakeMode := true } }

/-- Unparseable truthy visit date, storage code 2: triggers the
visited-filter skip on the first pass, then is removed by the storage
filter. -/
def c6ItemA : Item :=
  { lastVisitedTimeUTC := some "garbageXYZ",
    artifact := some { storageMode := some 2 } }

/-- Parseable visit date on/after the boundary, storage code 1: survives
the skipped visited filter on the first pass but not the second. -/
def c6ItemB : Item :=
  { lastVisitedTimeUTC := some "2024-12-01T00:00:00",
    artifact := some { storageMode := some 1 } }

def c6Args : FilterArgs :=
  { not_visited_since := some "2024-06-01", storage_mode := some "import" }

def c6GoodArgs : FilterArgs := { name_filter := some "sal" }

def c6GoodItem : Item := { displayName := some "Sales Model" }

def c2Item : Item := { displayName := some "Sales" }

def c7ItemA : Item := { displayName := some "dup", objectId := some "first" }

def c7ItemB : Item := { displayName := some "dup", objectId := some "second" }

/-- A 200-response body that is valid JSON but not an array. -/
def c10Net : SearchRequest → NetOutcome :=
  fun _ => .resp { status := 200, text := "\x7b\x7d", jsonBody := .ok .nonList }

def c1TimeoutNet : SearchRequest → NetOutcome := fun _ => .timeout

/-- `/Date(10^22)/`: within Python's arbitrary-precision `int` but beyond
the platform `time_t` range, so `datetime.fromtimestamp(ms / 1000)` raises
`OverflowError`, which `except (ValueError, OSError)` does not catch. -/
def c3FailingInput : String := "/Date(10000000000000000000000)/"

/-! # Theorems -/

/-! ## List-level stage lemmas -/

theorem textFilterStage_sublist (arg : Option String) (pred : String → Item → Bool)
    (result : List Item) : (textFilterStage arg pred result).Sublist result := by
  unfold textFilterStage
  cases arg with
  | none => exact List.Sublist.refl _
  | some s =>
    by_cases hs : s.isEmpty <;> simp [hs, List.filter_sublist]

theorem dateSkipStage_sublist (arg : Option String) (bad : Item → Bool)
    (pred : PyDateTime → Item → Bool) (result : List Item) :
    (dateSkipStage arg bad pred result).Sublist result := by
  unfold dateSkipStage
  cases arg with
  | none => exact List.Sublist.refl _
  | some s =>
    by_cases hs : s.isEmpty
    · simp [hs]
    · simp only [hs, Bool.false_eq_true, if_false]
      cases strptimeYmd s with
      | none => exact List.Sublist.refl _
      | some since_date =>
        by_cases hb : result.any bad <;> simp [hb, List.filter_sublist]

theorem dateRaiseStage_ok_sublist (arg : Option String) (bad : Item → Bool)
    (pred : PyDateTime → Item → Bool) (result out : List Item)
    (h : dateRaiseStage arg bad pred result = .ok out) : out.Sublist result := by
  unfold dateRaiseStage at h
  cases arg with
  | none => cases h; exact List.Sublist.refl _
  | some s =>
    by_cases hs : s.isEmpty
    · simp only [hs, if_true] at h; cases h; exact List.Sublist.refl _
    · simp only [hs, Bool.false_eq_true, if_false] at h
      cases hp : strptimeYmd s with
      | none => rw [hp] at h; cases h; exact List.Sublist.refl _
      | some since_date =>
        rw [hp] at h
        by_cases hb : result.any bad
        · simp [hb] at h
        · simp only [hb, Bool.false_eq_true, if_false, Except.ok.injEq] at h
          cases h; exact List.filter_sublist _

/-- Every `.ok` result of `apply_filters` is a sublist of the input. -/
theorem apply_filters_sublist (a : FilterArgs) (items out : List Item)
    (h : apply_filters a items = .ok out) : out.Sublist items := by
  simp only [apply_filters] at h
  set r1 := textFilterStage a.name_filter namePred items with hr1
  set r2 := textFilterStage a.workspace_filter workspacePred r1 with hr2
  set r3 := textFilterStage a.owner_filter ownerPred r2 with hr3
  set r4 := dateSkipStage a.visited_since visitedBad visitedSincePred r3 with hr4
  set r5 := dateSkipStage a.not_visited_since visitedBad notVisitedSincePred r4 with hr5
  cases hq1 : dateRaiseStage a.refreshed_since refreshedBad refreshedSincePred r5 with
  | error e => rw [hq1] at h; exact absurd h (by simp)
  | ok r6 =>
    rw [hq1] at h
    dsimp only at h
    cases hq2 : dateRaiseStage a.not_refreshed_since refreshedBad notRefreshedSincePred r6 with
    | error e => rw [hq2] at h; exact absurd h (by simp)
    | ok r7 =>
      rw [hq2] at h
      dsimp only at h
      cases hq3 : dateRaiseStage a.updated_since updatedBad updatedSincePred r7 with
      | error e => rw [hq3] at h; exact absurd h (by simp)
      | ok r8 =>
        rw [hq3] at h
        dsimp only at h
        cases hq4 : dateRaiseStage a.not_updated_since updatedBad notUpdatedSincePred r8 with
        | error e => rw [hq4] at h; exact absurd h (by simp)
        | ok r9 =>
          rw [hq4] at h
          dsimp only at h
          simp only [Except.ok.injEq] at h
          rw [← h]
          exact ((((((((((textFilterStage_sublist _ _ _).trans
            (textFilterStage_sublist _ _ _)).trans
            (dateRaiseStage_ok_sublist _ _ _ _ _ hq4)).trans
            (dateRaiseStage_ok_sublist _ _ _ _ _ hq3)).trans
            (dateRaiseStage_ok_sublist _ _ _ _ _ hq2)).trans
            (dateRaiseStage_ok_sublist _ _ _ _ _ hq1)).trans
            (dateSkipStage_sublist _ _ _ _)).trans
            (dateSkipStage_sublist _ _ _ _)).trans
            (textFilterStage_sublist _ _ _)).trans
            (textFilterStage_sublist _ _ _)).trans
            (textFilterStage_sublist _ _ _)

/-- C2: for every input item list and every combination of filter
arguments, whenever `apply_filters` returns a list, that list is a subset
of the input — every record in the output appears in the input; no
predicate adds records. -/
theorem c2_apply_filters_subset (a : FilterArgs) (items out : List Item)
    (h : apply_filters a items = .ok out) : ∀ x, x ∈ out → x ∈ items :=
  fun _ hx => List.Sublist.mem hx (apply_filters_sublist a items out h)

/-- C2 witness: the subset property at a concrete run. -/
theorem c2_witness : c2Item ∈ [c2Item] :=
  c2_apply_filters_subset {} [c2Item] [c2Item] rfl c2Item (by simp)

/-! ## C3: the temporal codec can raise -/

/-- C3: the claim that `_parse_odata_date` "never raises ... in particular
[for] a bracketed millisecond value that is out of range" fails on the
code: for `/Date(10000000000000000000000)/` (10^22 ms, about 10^19
seconds, beyond the 2^63 `time_t` range) `datetime.fromtimestamp` raises
`OverflowError`, which the function's `except (ValueError, OSError)` does
not catch, so the call raises instead of returning `None`.  This theorem
evaluates the embedded code at that failing input. -/
theorem c3_parse_odata_date_overflow_raises :
    _parse_odata_date (some c3FailingInput) = .error "OverflowError" := by decide

/-! ## C5: the storage-mode filter -/

/-- C5 counterexample: the claim says any mode value other than the three
lower-case strings `import`, `directquery`, `directlake` matches no item,
but the code lower-cases the mode first, so the distinct value `"Import"`
matches an item with storage code 1 (and is kept by `apply_filters`). -/
theorem c5_counterexample :
    apply_filters { storage_mode := some "Import" } [c5ImportItem] = .ok [c5ImportItem]
      ∧ matches_storage "Import" c5ImportItem = true
      ∧ ¬("Import" = "import" ∨ "Import" = "directquery" ∨ "Import" = "directlake") := by
  refine ⟨by decide, by decide, by decide⟩

/-- C5 amended: after lower-casing the supplied mode, an item matches the
storage-mode filter exactly when the mode is `import` and the artifact's
storage code is 1, or `directquery` and the code is 2, or `directlake` and
the artifact's direct-lake flag is set; a mode whose lower-casing is none
of the three matches no item.  The spec's two examples are included: the
flag decides `directlake` (an item with flag set and code 2 matches; an
item with code 1 and no flag does not). -/
theorem c5_storage_mode_amended :
    (∀ (storage_mode : String) (item : Item),
      matches_storage storage_mode item = true ↔
        ((pyLower storage_mode = "import" ∧ item.art.storageMode = some 1)
          ∨ (pyLower storage_mode = "directquery" ∧ item.art.storageMode = some 2)
          ∨ (pyLower storage_mode = "directlake" ∧ item.art.directLakeMode = true)))
    ∧ matches_storage "directlake" c5DirectLakeItem = true
    ∧ matches_storage "directlake" c5ImportItem = false := by
  refine ⟨fun storage_mode item => ?_, by decide, by decide⟩
  unfold matches_storage
  simp only [Bool.or_eq_true, Bool.and_eq_true, beq_iff_eq]
  rw [or_assoc]

/-! ## C8: type resolution -/

/-- C8: type resolution is total (a total Lean function by construction):
a registered public label resolves to its registry `trident` value, and an
unregistered label resolves to itself lower-cased, with no failure. -/
theorem c8_type_resolution_total (item_type : String) :
    (∀ info, ITEM_TYPES.lookup item_type = some info →
       resolveTridentType item_type = info.trident)
    ∧ (ITEM_TYPES.lookup item_type = none →
       resolveTridentType item_type = pyLower item_type) := by
  constructor
  · intro info hl
    unfold resolveTridentType
    rw [hl]
  · intro hl
    unfold resolveTridentType
    rw [hl]

/-- C8 witness: a registered label (`Model` resolves to the backend label
`dataset`) and an unregistered one (`FooBar` resolves to `foobar`). -/
theorem c8_witness :
    resolveTridentType "Model" = "dataset" ∧ resolveTridentType "FooBar" = "foobar" :=
  ⟨(c8_type_resolution_total "Model").1 ⟨"dataset", "Models", "Semantic models/datasets (USE THIS)"⟩ (by decide),
   ((c8_type_resolution_total "FooBar").2 (by decide)).trans (by decide)⟩

/-! ## C9: the empty-list renderings -/

/-- C9: on the empty item list, the table, brief and detailed modes each
produce the documented `No items found.` indicator, while the structured
`json` mode renders the empty list `[]` instead. -/
theorem c9_format_output_empty :
    format_output [] "table" = .ok "No items found."
      ∧ format_output [] "brief" = .ok "No items found."
      ∧ format_output [] "detailed" = .ok "No items found."
      ∧ format_output [] "json" = .ok "[]" := by
  refine ⟨by decide, by decide, by decide, by decide⟩

/-! ## C10: non-array 200 bodies -/

/-- C10: an HTTP 200 response whose body parses to a JSON value that is
not a list yields `success=True` with an empty `items` list and `count` 0
— silently coerced to zero results, not a failure. -/
theorem c10_non_list_body_coerced (net : SearchRequest → NetOutcome)
    (token : String) (item_types : List String) (region host : String)
    (workspace_id : Option String) (page_size page_number : Int)
    (hreg : REGIONS.lookup region = some host)
    (hnet : ∀ req, ∃ body,
      net req = .resp { status := 200, text := body, jsonBody := .ok .nonList }) :
    search_datahub net token item_types region workspace_id page_size page_number
      = { success := true, items := some [], count := some 0,
          region := some region, host := some host } := by
  unfold search_datahub
  rw [hreg]
  dsimp only
  obtain ⟨body, hb⟩ :=
    hnet (searchRequestOf token item_types host workspace_id page_size page_number)
  rw [hb]
  rfl

/-- C10 witness: a concrete non-array 200 body against the default region
is coerced to zero results. -/
theorem c10_witness :
    search_datahub c10Net "tok" ["Model"] "west-europe" none 100 1
      = { success := true, items := some [], count := some 0,
          region := some "west-europe",
          host := some "wabi-west-europe-e-primary-redirect.analysis.windows.net" } :=
  c10_non_list_body_coerced c10Net "tok" ["Model"] "west-europe"
    "wabi-west-europe-e-primary-redirect.analysis.windows.net" none 100 1
    (by decide) (fun req => ⟨"\x7b\x7d", rfl⟩)

/-! ## C4: the `not-visited-since` filter -/

theorem strptimeYmd_empty : strptimeYmd "" = none := rfl

/-- The filter's predicate agrees with the claim's membership predicate
on every item (a non-truthy `lastVisitedTimeUTC` is the empty string,
which does not parse, so both sides reject it; the divergence of C4 lies
in the skip behavior, not in the predicate). -/
theorem notVisitedSincePred_eq_claimPred (since_date : PyDateTime) (x : Item) :
    notVisitedSincePred since_date x = c4ClaimPred since_date x := by
  unfold notVisitedSincePred c4ClaimPred
  cases htr : truthyS x.lastVisitedTimeUTC with
  | true => rw [Bool.true_and]
  | false =>
    rw [Bool.false_and]
    cases hlv : x.lastVisitedTimeUTC with
    | none =>
      rw [show strptimeYmd ((getS (none : Option String) "").take 10) = none from by decide]
    | some s =>
      rw [hlv] at htr
      have hs : s = "" := (String.isEmpty_iff s).mp (by
        cases he : s.isEmpty
        · rw [truthyS] at htr; rw [he] at htr; exact absurd htr (by simp)
        · rfl)
      subst hs
      rw [show strptimeYmd ((getS (some "") "").take 10) = none from by decide]

/-- A `some b` date stage with a well-formed boundary and no bad item in
the list is the plain filter. -/
theorem dateSkipStage_eq_filter (b : String) (since_date : PyDateTime)
    (bad : Item → Bool) (pred : PyDateTime → Item → Bool) (items : List Item)
    (hb : strptimeYmd b = some since_date) (hany : items.any bad = false) :
    dateSkipStage (some b) bad pred items = items.filter (pred since_date) := by
  have hbe : b.isEmpty = false := by
    cases he : b.isEmpty
    · rfl
    · rw [(String.isEmpty_iff b).mp he] at hb
      exact absurd hb (by simp [strptimeYmd_empty])
  simp only [dateSkipStage]
  rw [hbe, hb, hany]
  simp

/-- C4 counterexample: the claim quantifies over every item list, but an
item whose truthy `lastVisitedTimeUTC` does not parse makes the
comprehension raise `ValueError`, so the whole filter is skipped and the
item is kept — although the claim's "keeps exactly the items whose parsed
date is strictly before the boundary" requires it to be excluded. -/
theorem c4_counterexample :
    apply_filters { not_visited_since := some "2024-06-01" } [c4BadItem]
        = .ok [c4BadItem]
      ∧ [c4BadItem].filter (c4ClaimPred { year := 2024, month := 6, day := 1 }) = []
      ∧ strptimeYmd "2024-06-01" = some { year := 2024, month := 6, day := 1 } := by
  refine ⟨by decide, by decide, by decide⟩

/-- With only `not_visited_since` supplied, `apply_filters` is exactly the
`not-visited-since` stage. -/
theorem apply_filters_only_nvs (b : String) (items : List Item) :
    apply_filters { not_visited_since := some b } items
      = .ok (dateSkipStage (some b) visitedBad notVisitedSincePred items) := rfl

/-- C4 amended: for every item list in which each present, non-empty
`lastVisitedTimeUTC` has a parseable first-ten-character date (so no
comprehension `ValueError` skips the filter), and every boundary string
parsing as a calendar date, the `not-visited-since` filter keeps exactly
the items whose visit date is strictly before the boundary, and excludes
every item whose `lastVisitedTimeUTC` is absent or empty (those fail to
parse and are excluded by `c4ClaimPred`). -/
theorem c4_not_visited_since_amended (b : String) (since_date : PyDateTime)
    (hb : strptimeYmd b = some since_date) (items : List Item)
    (hgood : ∀ x ∈ items, visitedBad x = false) :
    apply_filters { not_visited_since := some b } items
      = .ok (items.filter (c4ClaimPred since_date)) := by
  have hany : items.any visitedBad = false :=
    List.any_eq_false.mpr (fun x hx => by simp [hgood x hx])
  rw [apply_filters_only_nvs]
  rw [dateSkipStage_eq_filter b since_date visitedBad notVisitedSincePred items hb hany]
  rw [List.filter_congr
    (fun x _ => notVisitedSincePred_eq_claimPred since_date x)]

/-- C4 witness: the spec's example — boundary `2024-06-01`; an item
visited `2023-01-01` is kept, one visited `2024-12-01` is excluded, one
with no `lastVisitedTimeUTC` is excluded. -/
theorem c4_witness :
    apply_filters { not_visited_since := some "2024-06-01" }
        [c4Visited2023, c4Visited2024, c4NoVisit]
      = .ok [c4Visited2023] := by
  rw [c4_not_visited_since_amended "2024-06-01" { year := 2024, month := 6, day := 1 }
    (by decide) [c4Visited2023, c4Visited2024, c4NoVisit] (by decide)]
  decide

/-! ## C7: stable sorting and the unknown-field no-op -/

theorem lexLt_irrefl (l : List Char) : lexLt l l = false := by
  induction l with
  | nil => rfl
  | cons c t ih => simp [lexLt, ih]

theorem pyStrLt_irrefl (s : String) : pyStrLt s s = false := lexLt_irrefl _

theorem sortLt_irrefl (reverse : Bool) (s : String) : sortLt reverse s s = false := by
  cases reverse <;> simp [sortLt, pyStrLt_irrefl]

/-- Inserting preserves every exact-key equivalence class of the list:
elements skipped over have strictly smaller keys, hence different keys. -/
theorem filter_pyInsert (lt : String → String → Bool) (key : Item → String)
    (hirr : ∀ a, lt a a = false) (x : Item) (l : List Item) (k : String) :
    (pyInsert lt key x l).filter (fun z => key z == k)
      = (x :: l).filter (fun z => key z == k) := by
  induction l with
  | nil => rfl
  | cons y ys ih =>
    by_cases hlt : lt (key y) (key x) = true
    · have hstep : pyInsert lt key x (y :: ys) = y :: pyInsert lt key x ys := by
        simp [pyInsert, hlt]
      rw [hstep]
      cases hyk : key y == k with
      | true =>
        have hxk : (key x == k) = false := by
          cases hxk2 : key x == k with
          | false => rfl
          | true =>
            exfalso
            rw [beq_iff_eq] at hyk hxk2
            rw [hyk.trans hxk2.symm] at hlt
            rw [hirr] at hlt
            exact Bool.noConfusion hlt
        simp [List.filter_cons, hyk, hxk, ih]
      | false =>
        simp [List.filter_cons, hyk, ih]
    · have hstep : pyInsert lt key x (y :: ys) = x :: y :: ys := by
        simp [pyInsert, hlt]
      rw [hstep]

/-- The sort preserves every exact-key equivalence class: the statement of
stability (equal-keyed records keep their input order and multiplicity). -/
theorem filter_pySorted (lt : String → String → Bool) (key : Item → String)
    (hirr : ∀ a, lt a a = false) (l : List Item) (k : String) :
    (pySorted lt key l).filter (fun z => key z == k)
      = l.filter (fun z => key z == k) := by
  induction l with
  | nil => rfl
  | cons x xs ih =>
    show (pyInsert lt key x (pySorted lt key xs)).filter (fun z => key z == k) = _
    rw [filter_pyInsert lt key hirr]
    simp only [List.filter_cons]
    rw [ih]

/-- C7: for each of the six recognized sort fields and both directions,
`sort_items` is stable — filtering the output by any exact sort-key value
returns the same sequence as filtering the input, so records with equal
keys keep their relative input order (and the output is a permutation of
the input) — and any unrecognized sort-field name returns the input list
unchanged. -/
theorem c7_sort_items_stable_and_unknown_noop :
    (∀ sort_by ∈ (["name", "workspace", "last-visited", "last-refreshed",
        "last-modified", "owner"] : List String),
      ∀ (sort_order : String) (items : List Item) (k : String),
        (sort_items items sort_by sort_order).filter (fun x => sortKeyOf sort_by x == k)
          = items.filter (fun x => sortKeyOf sort_by x == k))
    ∧ (∀ sort_by, sort_by ∉ (["name", "workspace", "last-visited", "last-refreshed",
        "last-modified", "owner"] : List String) →
      ∀ (sort_order : String) (items : List Item),
        sort_items items sort_by sort_order = items) := by
  constructor
  · intro sort_by hmem sort_order items k
    simp only [List.mem_cons, List.not_mem_nil, or_false] at hmem
    rcases hmem with rfl | rfl | rfl | rfl | rfl | rfl <;>
      exact filter_pySorted _ _ (sortLt_irrefl _) items k
  · intro sort_by hmem sort_order items
    simp only [List.mem_cons, List.not_mem_nil, or_false, not_or] at hmem
    obtain ⟨h1, h2, h3, h4, h5, h6⟩ := hmem
    simp only [sort_items, if_neg h1, if_neg h2, if_neg h3, if_neg h4, if_neg h5,
      if_neg h6]

/-- C7 witness: two records with the same name key keep their input order
under both directions, and an unknown field is the identity. -/
theorem c7_witness :
    (sort_items [c7ItemA, c7ItemB] "name" "asc").filter
        (fun x => sortKeyOf "name" x == "dup")
      = [c7ItemA, c7ItemB].filter (fun x => sortKeyOf "name" x == "dup")
    ∧ sort_items [c7ItemA, c7ItemB] "bogus" "asc" = [c7ItemA, c7ItemB] :=
  ⟨c7_sort_items_stable_and_unknown_noop.1 "name" (by decide) "asc" [c7ItemA, c7ItemB] "dup",
   c7_sort_items_stable_and_unknown_noop.2 "bogus" (by decide) "asc" [c7ItemA, c7ItemB]⟩

/-! ## C1: the search client never throws -/

/-- C1: `search_datahub` (a total function of its inputs and the network
oracle, modeling that the Python function never raises past its boundary):
an unknown region key yields a structured `success=False` failure with a
human-readable message, identically for every network oracle — i.e. before
any network request; every non-success result carries an error message;
and for a known region, a timeout, a transport exception, a non-200
response, and a 200 response whose body is not JSON each yield the
documented structured failure rather than a raise. -/
theorem c1_search_datahub_structured_failures (net : SearchRequest → NetOutcome)
    (token : String) (item_types : List String) (region : String)
    (workspace_id : Option String) (page_size page_number : Int) :
    (REGIONS.lookup region = none →
      search_datahub net token item_types region workspace_id page_size page_number
          = { success := false,
              error := some ("Unknown region: " ++ region
                ++ ". Use --list-regions to see options.") }
        ∧ ∀ net', search_datahub net' token item_types region workspace_id page_size page_number
            = search_datahub net token item_types region workspace_id page_size page_number)
    ∧ ((search_datahub net token item_types region workspace_id page_size page_number).success
          = false →
        ∃ msg, (search_datahub net token item_types region workspace_id page_size
          page_number).error = some msg)
    ∧ (∀ host, REGIONS.lookup region = some host →
        (net (searchRequestOf token item_types host workspace_id page_size page_number)
            = .timeout →
          search_datahub net token item_types region workspace_id page_size page_number
            = { success := false, error := some "Request timed out (60s)",
                region := some region })
        ∧ (∀ m, net (searchRequestOf token item_types host workspace_id page_size page_number)
            = .exc m →
          search_datahub net token item_types region workspace_id page_size page_number
            = { success := false, error := some m, region := some region })
        ∧ (∀ r, net (searchRequestOf token item_types host workspace_id page_size page_number)
            = .resp r → r.status ≠ 200 →
          search_datahub net token item_types region workspace_id page_size page_number
            = { success := false,
                error := some ("HTTP " ++ toString r.status ++ ": " ++ pyTake r.text 200),
                region := some region })
        ∧ (∀ r e, net (searchRequestOf token item_types host workspace_id page_size page_number)
            = .resp r → r.status = 200 → r.jsonBody = .error e →
          search_datahub net token item_types region workspace_id page_size page_number
            = { success := false, error := some e, region := some region })) := by
  refine ⟨?_, ?_, ?_⟩
  · intro hreg
    constructor
    · unfold search_datahub
      rw [hreg]
    · intro net'
      unfold search_datahub
      rw [hreg]
  · unfold search_datahub
    cases hreg : REGIONS.lookup region with
    | none =>
      intro _
      exact ⟨_, rfl⟩
    | some host =>
      dsimp only
      cases hnet : net (searchRequestOf token item_types host workspace_id page_size
          page_number) with
      | resp r =>
        dsimp only
        by_cases hst : r.status = 200
        · rw [if_pos hst]
          cases hjson : r.jsonBody with
          | ok b =>
            cases b with
            | list xs => intro hfail; exact absurd hfail (by simp)
            | nonList => intro hfail; exact absurd hfail (by simp)
          | error e =>
            intro _
            exact ⟨e, rfl⟩
        · rw [if_neg hst]
          intro _
          exact ⟨_, rfl⟩
      | timeout =>
        dsimp only
        intro _
        exact ⟨_, rfl⟩
      | exc m =>
        dsimp only
        intro _
        exact ⟨_, rfl⟩
  · intro host hreg
    refine ⟨?_, ?_, ?_, ?_⟩
    · intro hnet
      unfold search_datahub
      rw [hreg]
      dsimp only
      rw [hnet]
    · intro m hnet
      unfold search_datahub
      rw [hreg]
      dsimp only
      rw [hnet]
    · intro r hnet hst
      unfold search_datahub
      rw [hreg]
      dsimp only
      rw [hnet]
      dsimp only
      rw [if_neg hst]
    · intro r e hnet hst hjson
      unfold search_datahub
      rw [hreg]
      dsimp only
      rw [hnet]
      dsimp only
      rw [if_pos hst, hjson]

/-- C1 witness: an unknown region fails before the network (the oracle is
never consulted), and a timeout on a known region is returned as the
documented structured failure. -/
theorem c1_witness :
    search_datahub c1TimeoutNet "t" ["Model"] "mars" none 100 1
      = { success := false,
          error := some "Unknown region: mars. Use --list-regions to see options." }
    ∧ search_datahub c1TimeoutNet "t" ["Model"] "west-europe" none 100 1
      = { success := false, error := some "Request timed out (60s)",
          region := some "west-europe" } := by
  constructor
  · exact ((c1_search_datahub_structured_failures c1TimeoutNet "t" ["Model"] "mars"
      none 100 1).1 (by decide)).1
  · exact (((c1_search_datahub_structured_failures c1TimeoutNet "t" ["Model"] "west-europe"
      none 100 1).2.2 "wabi-west-europe-e-primary-redirect.analysis.windows.net"
      (by decide)).1 rfl)

/-! ## C6: idempotence -/

theorem any_false_of_sublist (bad : Item → Bool) (u v : List Item)
    (hs : u.Sublist v) (hv : v.any bad = false) : u.any bad = false := by
  rw [List.any_eq_false] at hv ⊢
  exact fun x hx => hv x (List.Sublist.mem hx hs)

/-- A text stage fixes any sublist of its own output. -/
theorem textFilterStage_apply_sub (arg : Option String) (pred : String → Item → Bool)
    (r u : List Item) (hu : u.Sublist (textFilterStage arg pred r)) :
    textFilterStage arg pred u = u := by
  unfold textFilterStage at hu ⊢
  cases arg with
  | none => rfl
  | some s =>
    by_cases hs : s.isEmpty
    · simp [hs]
    · simp only [hs, Bool.false_eq_true, if_false] at hu ⊢
      exact List.filter_eq_self.mpr
        (fun x hx => (List.mem_filter.mp (List.Sublist.mem hx hu)).2)

/-- A caught-error date stage with no bad item in its input fixes any
sublist of its own output. -/
theorem dateSkipStage_apply_sub (arg : Option String) (bad : Item → Bool)
    (pred : PyDateTime → Item → Bool) (r u : List Item)
    (hg : ∀ x ∈ r, bad x = false)
    (hu : u.Sublist (dateSkipStage arg bad pred r)) :
    dateSkipStage arg bad pred u = u := by
  unfold dateSkipStage at hu ⊢
  cases arg with
  | none => rfl
  | some s =>
    by_cases hs : s.isEmpty
    · simp [hs]
    · simp only [hs, Bool.false_eq_true, if_false] at hu ⊢
      cases hp : strptimeYmd s with
      | none => rfl
      | some since_date =>
        rw [hp] at hu
        dsimp only at hu ⊢
        have hanyr : r.any bad = false := List.any_eq_false.mpr (fun x hx => by simp [hg x hx])
        rw [hanyr] at hu
        simp only [Bool.false_eq_true, if_false] at hu
        have hsub_r : u.Sublist r := hu.trans (List.filter_sublist r)
        have hanyu : u.any bad = false := any_false_of_sublist bad u r hsub_r hanyr
        rw [hanyu]
        simp only [Bool.false_eq_true, if_false]
        exact List.filter_eq_self.mpr
          (fun x hx => (List.mem_filter.mp (List.Sublist.mem hx hu)).2)

/-- A raising date stage that returned `.ok m` fixes any sublist of `m`. -/
theorem dateRaiseStage_apply_sub (arg : Option String) (bad : Item → Bool)
    (pred : PyDateTime → Item → Bool) (r m u : List Item)
    (h : dateRaiseStage arg bad pred r = .ok m) (hu : u.Sublist m) :
    dateRaiseStage arg bad pred u = .ok u := by
  unfold dateRaiseStage at h ⊢
  cases arg with
  | none => rfl
  | some s =>
    by_cases hs : s.isEmpty
    · simp [hs]
    · simp only [hs, Bool.false_eq_true, if_false] at h ⊢
      cases hp : strptimeYmd s with
      | none => rfl
      | some since_date =>
        rw [hp] at h
        dsimp only at h ⊢
        by_cases hanyr : r.any bad = true
        · rw [if_pos hanyr] at h
          exact absurd h (by simp)
        · rw [if_neg hanyr] at h
          rw [Bool.not_eq_true] at hanyr
          simp only [Except.ok.injEq] at h
          have hum : u.Sublist (r.filter (pred since_date)) := h ▸ hu
          have hsub_r : u.Sublist r := hum.trans (List.filter_sublist r)
          have hanyu : u.any bad = false := any_false_of_sublist bad u r hsub_r hanyr
          rw [hanyu]
          simp only [Bool.false_eq_true, if_false, Except.ok.injEq]
          exact List.filter_eq_self.mpr
            (fun x hx => (List.mem_filter.mp (List.Sublist.mem hx hum)).2)

/-- C6 counterexample: with `not-visited-since 2024-06-01` and
`storage-mode import`, a first pass skips the visited filter (one item's
truthy `lastVisitedTimeUTC` raises `ValueError` in the comprehension) and
the storage filter then removes that item; the second pass no longer
skips, so it removes the remaining item: applying the same filters twice
differs from applying them once. -/
theorem c6_counterexample :
    apply_filters c6Args [c6ItemA, c6ItemB] = .ok [c6ItemB]
      ∧ apply_filters c6Args [c6ItemB] = .ok [] := by
  refine ⟨by decide, by decide⟩

/-- C6 amended: on item lists whose present, non-empty `lastVisitedTimeUTC`
values all parse (so no visited-filter skip can differ between passes),
`apply_filters` is idempotent: if a pass returns `out`, running the same
arguments on `out` returns `out` again. -/
theorem c6_idempotent_amended (a : FilterArgs) (items out : List Item)
    (hgood : ∀ x ∈ items, visitedBad x = false)
    (h : apply_filters a items = .ok out) :
    apply_filters a out = .ok out := by
  simp only [apply_filters] at h ⊢
  set r1 := textFilterStage a.name_filter namePred items with hr1
  set r2 := textFilterStage a.workspace_filter workspacePred r1 with hr2
  set r3 := textFilterStage a.owner_filter ownerPred r2 with hr3
  set r4 := dateSkipStage a.visited_since visitedBad visitedSincePred r3 with hr4
  set r5 := dateSkipStage a.not_visited_since visitedBad notVisitedSincePred r4 with hr5
  cases hq1 : dateRaiseStage a.refreshed_since refreshedBad refreshedSincePred r5 with
  | error e => rw [hq1] at h; exact absurd h (by simp)
  | ok r6 =>
    rw [hq1] at h
    dsimp only at h
    cases hq2 : dateRaiseStage a.not_refreshed_since refreshedBad notRefreshedSincePred r6 with
    | error e => rw [hq2] at h; exact absurd h (by simp)
    | ok r7 =>
      rw [hq2] at h
      dsimp only at h
      cases hq3 : dateRaiseStage a.updated_since updatedBad updatedSincePred r7 with
      | error e => rw [hq3] at h; exact absurd h (by simp)
      | ok r8 =>
        rw [hq3] at h
        dsimp only at h
        cases hq4 : dateRaiseStage a.not_updated_since updatedBad notUpdatedSincePred r8 with
        | error e => rw [hq4] at h; exact absurd h (by simp)
        | ok r9 =>
          rw [hq4] at h
          dsimp only at h
          simp only [Except.ok.injEq] at h
          have so_sku : out.Sublist (textFilterStage a.capacity_sku skuPred
              (textFilterStage a.storage_mode matches_storage r9)) := by
            rw [h]
          have so_storage : out.Sublist (textFilterStage a.storage_mode matches_storage r9) :=
            so_sku.trans (textFilterStage_sublist _ _ _)
          have so9 : out.Sublist r9 := so_storage.trans (textFilterStage_sublist _ _ _)
          have so8 : out.Sublist r8 := so9.trans (dateRaiseStage_ok_sublist _ _ _ _ _ hq4)
          have so7 : out.Sublist r7 := so8.trans (dateRaiseStage_ok_sublist _ _ _ _ _ hq3)
          have so6 : out.Sublist r6 := so7.trans (dateRaiseStage_ok_sublist _ _ _ _ _ hq2)
          have so5 : out.Sublist r5 := so6.trans (dateRaiseStage_ok_sublist _ _ _ _ _ hq1)
          have so4 : out.Sublist r4 := so5.trans (dateSkipStage_sublist _ _ _ _)
          have so3 : out.Sublist r3 := so4.trans (dateSkipStage_sublist _ _ _ _)
          have so2 : out.Sublist r2 := so3.trans (textFilterStage_sublist _ _ _)
          have so1 : out.Sublist r1 := so2.trans (textFilterStage_sublist _ _ _)
          have r3sub : r3.Sublist items := (textFilterStage_sublist _ _ _).trans
            ((textFilterStage_sublist _ _ _).trans (textFilterStage_sublist _ _ _))
          have r4sub : r4.Sublist items := (dateSkipStage_sublist _ _ _ _).trans r3sub
          have hgood3 : ∀ x ∈ r3, visitedBad x = false :=
            fun x hx => hgood x (List.Sublist.mem hx r3sub)
          have hgood4 : ∀ x ∈ r4, visitedBad x = false :=
            fun x hx => hgood x (List.Sublist.mem hx r4sub)
          rw [textFilterStage_apply_sub a.name_filter namePred items out so1]
          rw [textFilterStage_apply_sub a.workspace_filter workspacePred r1 out so2]
          rw [textFilterStage_apply_sub a.owner_filter ownerPred r2 out so3]
          rw [dateSkipStage_apply_sub a.visited_since visitedBad visitedSincePred
            r3 out hgood3 so4]
          rw [dateSkipStage_apply_sub a.not_visited_since visitedBad notVisitedSincePred
            r4 out hgood4 so5]
          rw [dateRaiseStage_apply_sub a.refreshed_since refreshedBad refreshedSincePred
            r5 r6 out hq1 so6]
          dsimp only
          rw [dateRaiseStage_apply_sub a.not_refreshed_since refreshedBad
            notRefreshedSincePred r6 r7 out hq2 so7]
          dsimp only
          rw [dateRaiseStage_apply_sub a.updated_since updatedBad updatedSincePred
            r7 r8 out hq3 so8]
          dsimp only
          rw [dateRaiseStage_apply_sub a.not_updated_since updatedBad notUpdatedSincePred
            r8 r9 out hq4 so9]
          dsimp only
          rw [textFilterStage_apply_sub a.storage_mode matches_storage r9 out so_storage]
          rw [textFilterStage_apply_sub a.capacity_sku skuPred
            (textFilterStage a.storage_mode matches_storage r9) out so_sku]

/-- C6 witness: a concrete parse-clean run where a second application of
the same arguments returns the first pass's output unchanged. -/
theorem c6_witness : apply_filters c6GoodArgs [c6GoodItem] = .ok [c6GoodItem] :=
  c6_idempotent_amended c6GoodArgs [c6GoodItem] [c6GoodItem] (by decide) (by decide)
